import Mathlib

/-!
Shallow embedding of the anonymous relay bot.  The repository holds two
near-duplicate variants: `src/bot.py` (simple ban model), modelled in
namespace `Bot`, and `src/gog.py` (whitelist and graduated 12-media
activation), modelled in namespace `Gog`.

Modelling conventions:
* The Postgres `users` table is an association list keyed by user id.
  `UPDATE ... WHERE user_id = x` maps pointwise over the entries with key
  `x`; `SELECT ... WHERE user_id = x` is a first-match lookup.  SQL `NULL`
  columns (`last_media`) are `Option Nat`; a `NULL < limit` comparison is
  not satisfied, exactly as in SQL.
* The chat transport is an external collaborator.  Where fan-out needs it,
  a send attempt is an oracle `Nat → Option Nat` returning the outbound
  message id on success and `none` on a transport error (which the source
  catches and skips).
* Timer-based debounce flushes (`time.sleep` followed by the flush body in
  `bot.py`, the spawned timer thread in `gog.py`) are modelled as
  separately delivered flush events: the relay handler reports which flush
  it arms in its result, and the flush function is applied as its own step,
  so that messages arriving during the debounce window interleave exactly
  as they do at runtime.
* Unbound-local crashes in `gog.py` (`count` at line 738 for whitelisted or
  admin senders, `group_id` at line 902 for single media from an active
  user) are modelled by a `crashed` flag in the relay result, with the
  state mutations performed before the crash kept.
-/

set_option maxHeartbeats 1000000

def ADMIN_ID : Nat := 8046643349

/-! ### Generic database helpers (association-list model of the tables) -/

/-- Map every row whose key matches, like an SQL `UPDATE`; the function also
sees the key so that `WHERE`-clauses on `user_id` can be expressed. -/
def dbMapRows {α : Type} (db : List (Nat × α)) (f : Nat → α → α) : List (Nat × α) :=
  db.map (fun p => (p.1, f p.1 p.2))

/-- First-match lookup, like `SELECT ... WHERE user_id = uid` with `fetchone`. -/
def dbLookup {α : Type} (db : List (Nat × α)) (uid : Nat) : Option α :=
  (db.find? (fun p => p.1 == uid)).map (fun p => p.2)

/-- Pointwise update of the rows with key `uid`. -/
def dbUpdate {α : Type} (db : List (Nat × α)) (uid : Nat) (f : α → α) : List (Nat × α) :=
  dbMapRows db (fun i u => if i == uid then f u else u)

/-- Pointwise update of a function-backed map (used for the in-memory
`media_groups` and `album_timers` dictionaries). -/
def fnSet {α : Type} (f : Nat → α) (k : Nat) (v : α) : Nat → α :=
  fun x => if x = k then v else f x

theorem dbLookup_dbMapRows {α : Type} (db : List (Nat × α)) (f : Nat → α → α) (uid : Nat) :
    dbLookup (dbMapRows db f) uid = (dbLookup db uid).map (f uid) := by
  induction db with
  | nil => rfl
  | cons p t ih =>
    by_cases h : p.1 = uid
    · simp [dbMapRows, dbLookup, List.find?_cons, h]
    · have hb : (p.1 == uid) = false := by simp [h]
      simp only [dbMapRows, List.map_cons, dbLookup, List.find?_cons, hb] at ih ⊢
      exact ih

theorem dbLookup_dbUpdate {α : Type} (db : List (Nat × α)) (uid : Nat) (f : α → α) :
    dbLookup (dbUpdate db uid f) uid = (dbLookup db uid).map f := by
  rw [dbUpdate, dbLookup_dbMapRows]
  cases dbLookup db uid <;> simp

/-! ### Messages, replies, relay jobs -/

/-- Content of an inbound message; the relay handler only accepts
`text`, `photo` and `video` content types. -/
inductive Content where
  | text (body : String)
  | photo
  | video
deriving DecidableEq

/-- An inbound chat message, with the fields the relay pipeline reads. -/
structure Message where
  chat_id : Nat
  content : Content
  media_group_id : Option Nat
deriving DecidableEq

/-- Whether `message.content_type in ['photo', 'video']` holds. -/
def Message.isMedia (m : Message) : Bool :=
  match m.content with
  | .text _ => false
  | .photo => true
  | .video => true

/-- User-visible replies sent by the handlers (one constructor per distinct
reply site that the claims observe). -/
inductive Reply where
  | youAreBanned
  | unbannedStayActive
  | inactiveSendMedia
  | messageSentAck
  | bannedWordBlocked
  | mediaLeftToActivate (remaining : Nat)
  | accountActivated
  | mediaLeftToReactivate (remaining : Nat)
  | activeAgain
  | send12ToActivate
  | inactiveSend12
deriving DecidableEq

/-- A relay job placed on the broadcast queue. -/
inductive Job where
  | single (m : Message)
  | album (ms : List Message)
deriving DecidableEq

/-! ### Banned-word filter (shared verbatim between the two variants) -/

/-- Whether `needle` is a leading subsequence of `hay` (character lists). -/
def charsPre : List Char → List Char → Bool
  | [], _ => true
  | _ :: _, [] => false
  | a :: as, b :: bs => a == b && charsPre as bs

/-- Whether `needle` occurs as a contiguous substring of `hay`, the meaning
of Python `needle in hay` on strings. -/
def charsSub (needle : List Char) : List Char → Bool
  | [] => charsPre needle []
  | b :: bs => charsPre needle (b :: bs) || charsSub needle bs

/-- `contains_banned_word`: the stored words are already lowercase; the
incoming text is lowercased and each word is substring-matched. -/
def contains_banned_word (words : List String) (text : String) : Bool :=
  words.any (fun word => charsSub word.data text.toLower.data)

/-- Whether the message is text whose body contains a banned word (the
word filter is only applied to text content). -/
def Message.textBanned (words : List String) (m : Message) : Bool :=
  match m.content with
  | .text body => contains_banned_word words body
  | _ => false

/-! ### Shared message-map (delivery record) store -/

/-- A delivery record: `(bot_message_id, original_user_id, receiver_id)`. -/
abbrev MsgRec := Nat × Nat × Nat

/-- `save_message_map` (identical in both variants): `INSERT ... ON CONFLICT
DO NOTHING` keyed by the outbound message id. -/
def save_message_map (mid origin receiver : Nat) (m : List MsgRec) : List MsgRec :=
  if m.any (fun rec => rec.1 == mid) then m else m ++ [(mid, origin, receiver)]

namespace Bot

/-- A row of the `users` table of `bot.py` (no `whitelisted` column). -/
structure UserRow where
  username : Option String
  banned : Bool
  auto_banned : Bool
  shadow_banned : Bool
  media_count : Nat
  last_media : Option Nat
deriving DecidableEq

abbrev Db := List (Nat × UserRow)

/-- Column defaults of the `users` schema; `last_media` has no default and
starts `NULL`. -/
def defaultRow : UserRow :=
  { username := none
    banned := false
    auto_banned := false
    shadow_banned := false
    media_count := 0
    last_media := none }

def user_exists (db : Db) (uid : Nat) : Bool :=
  (dbLookup db uid).isSome

/-- `add_user`: insert with the schema defaults, `ON CONFLICT DO NOTHING`. -/
def add_user (db : Db) (uid : Nat) : Db :=
  if user_exists db uid then db else db ++ [(uid, defaultRow)]

def is_banned (db : Db) (uid : Nat) : Bool :=
  ((dbLookup db uid).map (fun u => u.banned)).getD false

def is_auto_banned (db : Db) (uid : Nat) : Bool :=
  ((dbLookup db uid).map (fun u => u.auto_banned)).getD false

def is_shadow (db : Db) (uid : Nat) : Bool :=
  ((dbLookup db uid).map (fun u => u.shadow_banned)).getD false

/-- `shadow_toggle`: flip the shadow flag of one user. -/
def shadow_toggle (uid : Nat) (db : Db) : Db :=
  dbUpdate db uid (fun u => { u with shadow_banned := !u.shadow_banned })

/-- `update_media_activity` of `bot.py`: refresh the timestamp, increment
the media count by one and unconditionally clear the auto-ban. -/
def update_media_activity (now uid : Nat) (db : Db) : Db :=
  dbUpdate db uid (fun u =>
    { u with
      last_media := some now
      media_count := u.media_count + 1
      auto_banned := false })

/-- `check_inactive_users` of `bot.py`: auto-ban every not-manually-banned
user whose `last_media` is older than sixty seconds.  A `NULL` timestamp
never satisfies `last_media < limit`. -/
def check_inactive_users (now : Nat) (db : Db) : Db :=
  dbMapRows db (fun _ u =>
    if (match u.last_media with
        | none => false
        | some t => decide (t < now - 60)) && !u.banned
    then { u with auto_banned := true } else u)

/-- `get_all_users`: ids of all rows with both ban flags unset. -/
def get_all_users (db : Db) : List Nat :=
  (db.filter (fun p => !p.2.banned && !p.2.auto_banned)).map (fun p => p.1)

/-- The recipient enumeration of `_process_single` and `_process_album`:
`get_all_users` minus the origin chat. -/
def recipients (db : Db) (origin : Nat) : List Nat :=
  (get_all_users db).filter (fun u => u != origin)

/-- One iteration of the `_process_single` loop body for one recipient:
attempt the send; on success record the delivery, on a transport error do
nothing (the `except: pass`). -/
def sendStep (origin : Nat) (send : Nat → Option Nat) (m : List MsgRec) (uid : Nat) :
    List MsgRec :=
  match send uid with
  | some mid => save_message_map mid origin uid m
  | none => m

/-- `_process_single`: iterate over `get_all_users`, skip the origin, send
and record each successful delivery.  Returns the message map. -/
def process_single (db : Db) (origin : Nat) (send : Nat → Option Nat)
    (m0 : List MsgRec) : List MsgRec :=
  (get_all_users db).foldl
    (fun m uid => if uid == origin then m else sendStep origin send m uid) m0

/-- Process-wide mutable state touched by the `bot.py` relay handler. -/
structure State where
  db : Db
  words : List String
  media_groups : Nat → List Message
  queue : List Job

/-- Result of one `relay` handler invocation: the replies sent to the
sender, the new state, and the media-group id whose debounce flush this
call armed (the first message of a group sleeps and then flushes). -/
structure RelayOut where
  replies : List Reply
  state : State
  armed : Option Nat

/-- The tail of `relay` after the manual-ban and auto-ban checks: shadow
acknowledgement, word filter, inactivity sweep, media tracking, then album
buffering or single-job enqueue. -/
def relayMain (now : Nat) (msg : Message) (rs : List Reply) (st : State) : RelayOut :=
  let uid := msg.chat_id
  if is_shadow st.db uid then ⟨rs ++ [.messageSentAck], st, none⟩
  else if msg.textBanned st.words then ⟨rs ++ [.bannedWordBlocked], st, none⟩
  else
    let db1 := check_inactive_users now st.db
    let db2 := if msg.isMedia then update_media_activity now uid db1 else db1
    match msg.media_group_id with
    | some g =>
      let st1 := { st with
          db := db2
          media_groups := fnSet st.media_groups g (st.media_groups g ++ [msg]) }
      if (st.media_groups g).length + 1 > 1 then ⟨rs, st1, none⟩
      else ⟨rs, st1, some g⟩
    | none => ⟨rs, { st with db := db2, queue := st.queue ++ [Job.single msg] }, none⟩

/-- The `relay` handler of `bot.py`.  A manually banned sender is rejected
immediately.  An auto-banned sender recovers on any media message (falling
through to the normal pipeline) and is rejected on anything else. -/
def relay (now : Nat) (msg : Message) (st : State) : RelayOut :=
  let uid := msg.chat_id
  if is_banned st.db uid then ⟨[.youAreBanned], st, none⟩
  else if is_auto_banned st.db uid then
    if msg.isMedia then
      relayMain now msg [.unbannedStayActive]
        { st with db := update_media_activity now uid st.db }
    else ⟨[.inactiveSendMedia], st, none⟩
  else relayMain now msg [] st

/-- The debounce flush of the album branch: pop the buffered group and, if
non-empty, enqueue it as one `album` job. -/
def flush (g : Nat) (st : State) : State :=
  let album := st.media_groups g
  let st1 := { st with media_groups := fnSet st.media_groups g [] }
  if album.isEmpty then st1 else { st1 with queue := st1.queue ++ [Job.album album] }

end Bot

namespace Gog

/-- A row of the `users` table of `gog.py` (adds the `whitelisted` column). -/
structure UserRow where
  username : Option String
  banned : Bool
  auto_banned : Bool
  shadow_banned : Bool
  whitelisted : Bool
  media_count : Nat
  last_media : Option Nat
deriving DecidableEq

abbrev Db := List (Nat × UserRow)

def is_banned (db : Db) (uid : Nat) : Bool :=
  ((dbLookup db uid).map (fun u => u.banned)).getD false

def is_whitelisted (db : Db) (uid : Nat) : Bool :=
  ((dbLookup db uid).map (fun u => u.whitelisted)).getD false

def is_shadow (db : Db) (uid : Nat) : Bool :=
  ((dbLookup db uid).map (fun u => u.shadow_banned)).getD false

/-- Outcome of `update_media_activity` in `gog.py`: activation progress,
recovery from auto-ban, or already active. -/
inductive ActStatus where
  | progress
  | reactivated
  | active
deriving DecidableEq

/-- `update_media_activity` of `gog.py`: refresh the timestamp and add
`amount` to the media count; below the threshold report progress; an
auto-banned user at or above the threshold is reactivated with the count
clamped to `12`.  Returns `none` when the user row is absent (the Python
unpack of `fetchone()` would raise). -/
def update_media_activity (now uid amount : Nat) (db : Db) :
    Option (ActStatus × Nat × Db) :=
  let db1 := dbUpdate db uid (fun u =>
    { u with last_media := some now, media_count := u.media_count + amount })
  match dbLookup db1 uid with
  | none => none
  | some u =>
    if u.media_count < 12 then some (.progress, 12 - u.media_count, db1)
    else if u.auto_banned && decide (12 ≤ u.media_count) then
      some (.reactivated, 0,
        dbUpdate db1 uid (fun v => { v with auto_banned := false, media_count := 12 }))
    else some (.active, 0, db1)

/-- `check_inactive_users` of `gog.py`: auto-ban every user whose
`last_media` is `NULL` or stale, excluding manually banned, whitelisted and
the admin. -/
def check_inactive_users (now : Nat) (db : Db) : Db :=
  dbMapRows db (fun i u =>
    if ((match u.last_media with
         | none => true
         | some t => decide (t < now - 60)) && !u.banned && !u.whitelisted
        && (i != ADMIN_ID))
    then { u with auto_banned := true } else u)

/-- When the debounce timer of a correlation id fires, which closure runs:
the activation counter, the recovery counter, or the plain album relay. -/
inductive Arm where
  | activation (g uid : Nat)
  | recovery (g uid : Nat)
  | albumRelay (g : Nat)
deriving DecidableEq

/-- Process-wide mutable state touched by the `gog.py` relay handler. -/
structure State where
  db : Db
  words : List String
  media_groups : Nat → List Message
  album_timers : Nat → Bool
  queue : List Job

/-- Result of one `gog.py` `relay` invocation.  `armed` is the timer thread
this call spawned, if any; `crashed` records the unbound-local `NameError`
paths (`count` for whitelisted/admin senders, `group_id` for single media
from an active user). -/
structure RelayOut where
  replies : List Reply
  state : State
  armed : Option Arm
  crashed : Bool

/-- The tail of the `gog.py` relay for an active, non-auto-banned sender:
shadow acknowledgement, word filter, inactivity sweep, media tracking,
album buffering or single enqueue.  A single media message without a group
id reaches the `group_id in album_timers` test with `group_id` unbound and
crashes after the activity update. -/
def relayMain (now : Nat) (msg : Message) (st : State) : RelayOut :=
  let uid := msg.chat_id
  if is_shadow st.db uid then ⟨[.messageSentAck], st, none, false⟩
  else if msg.textBanned st.words then ⟨[.bannedWordBlocked], st, none, false⟩
  else
    let db1 := check_inactive_users now st.db
    if msg.isMedia then
      match update_media_activity now uid 1 db1 with
      | none => ⟨[], { st with db := db1 }, none, true⟩
      | some (_, _, db2) =>
        match msg.media_group_id with
        | some g =>
          let st1 := { st with
              db := db2
              media_groups := fnSet st.media_groups g (st.media_groups g ++ [msg]) }
          if st.album_timers g then ⟨[], st1, none, false⟩
          else ⟨[], { st1 with album_timers := fnSet st.album_timers g true },
                some (.albumRelay g), false⟩
        | none => ⟨[], { st with db := db2 }, none, true⟩
    else ⟨[], { st with db := db1, queue := st.queue ++ [Job.single msg] }, none, false⟩

/-- The `relay` handler of `gog.py`: manual ban first; then the activation
state is fetched for non-whitelisted, non-admin senders (whitelisted and
admin senders crash on the unbound `count`); then the initial-activation
block, the auto-ban recovery block, and finally the normal pipeline. -/
def relay (now : Nat) (msg : Message) (st : State) : RelayOut :=
  let uid := msg.chat_id
  if is_banned st.db uid then ⟨[.youAreBanned], st, none, false⟩
  else if !(is_whitelisted st.db uid) && (uid != ADMIN_ID) then
    match dbLookup st.db uid with
    | none => ⟨[], st, none, false⟩
    | some row =>
      if decide (row.media_count < 12) && !row.auto_banned then
        match msg.media_group_id with
        | some g =>
          let st1 := { st with
                       media_groups := fnSet st.media_groups g (st.media_groups g ++ [msg]) }
          if st.album_timers g then ⟨[], st1, none, false⟩
          else ⟨[], { st1 with album_timers := fnSet st.album_timers g true },
                some (.activation g uid), false⟩
        | none =>
          if msg.isMedia then
            match update_media_activity now uid 1 st.db with
            | none => ⟨[], st, none, true⟩
            | some (_, remaining, db1) =>
              if 0 < remaining then
                ⟨[.mediaLeftToActivate remaining], { st with db := db1 }, none, false⟩
              else ⟨[.accountActivated], { st with db := db1 }, none, false⟩
          else ⟨[.send12ToActivate], st, none, false⟩
      else if row.auto_banned then
        match msg.media_group_id with
        | some g =>
          let st1 := { st with
                       media_groups := fnSet st.media_groups g (st.media_groups g ++ [msg]) }
          if st.album_timers g then ⟨[], st1, none, false⟩
          else ⟨[], { st1 with album_timers := fnSet st.album_timers g true },
                some (.recovery g uid), false⟩
        | none =>
          if msg.isMedia then
            match update_media_activity now uid 1 st.db with
            | none => ⟨[], st, none, true⟩
            | some (status, remaining, db1) =>
              if status = ActStatus.reactivated then
                ⟨[.activeAgain], { st with db := db1 }, none, false⟩
              else if 0 < remaining then
                ⟨[.mediaLeftToReactivate remaining], { st with db := db1 }, none, false⟩
              else ⟨[], { st with db := db1 }, none, false⟩
          else ⟨[.inactiveSend12], st, none, false⟩
      else relayMain now msg st
  else ⟨[], st, none, true⟩

/-- Pop the buffered album and its one-shot timer for a correlation id. -/
def popAlbum (g : Nat) (st : State) : List Message × State :=
  (st.media_groups g,
   { st with
     media_groups := fnSet st.media_groups g []
     album_timers := fnSet st.album_timers g false })

/-- The `process_activation` timer body: pop the batch and credit its whole
length in a single `update_media_activity` call. -/
def process_activation (now g uid : Nat) (st : State) : List Reply × State :=
  let (album, st1) := popAlbum g st
  if album.isEmpty then ([], st1)
  else
    match update_media_activity now uid album.length st1.db with
    | none => ([], st1)
    | some (_, remaining, db1) =>
      if 0 < remaining then ([.mediaLeftToActivate remaining], { st1 with db := db1 })
      else ([.accountActivated], { st1 with db := db1 })

/-- The `process_recovery` timer body. -/
def process_recovery (now g uid : Nat) (st : State) : List Reply × State :=
  let (album, st1) := popAlbum g st
  if album.isEmpty then ([], st1)
  else
    match update_media_activity now uid album.length st1.db with
    | none => ([], st1)
    | some (status, remaining, db1) =>
      if status = ActStatus.reactivated then ([.activeAgain], { st1 with db := db1 })
      else if 0 < remaining then
        ([.mediaLeftToReactivate remaining], { st1 with db := db1 })
      else ([], { st1 with db := db1 })

/-- The `process_album` timer body: pop the batch and enqueue it as one
album job. -/
def process_album (g : Nat) (st : State) : State :=
  let (album, st1) := popAlbum g st
  if album.isEmpty then st1 else { st1 with queue := st1.queue ++ [Job.album album] }

/-- Deliver a list of messages to the handler in order, collecting the
final state and the sequence of armed flushes (one entry per message). -/
def arriveTrace (now : Nat) (msgs : List Message) (st : State) :
    State × List (Option Arm) :=
  msgs.foldl
    (fun acc m => ((relay now m acc.1).state, acc.2 ++ [(relay now m acc.1).armed]))
    (st, [])

end Gog

/-! ### Generic lemmas about the store model -/

theorem dbLookup_append_right {α : Type} (l1 l2 : List (Nat × α)) (uid : Nat)
    (h : dbLookup l1 uid = none) :
    dbLookup (l1 ++ l2) uid = dbLookup l2 uid := by
  induction l1 with
  | nil => rfl
  | cons p t ih =>
    by_cases hp : (p.1 == uid) = true
    · exfalso; simp [dbLookup, List.find?_cons, hp] at h
    · have hp2 : (p.1 == uid) = false := by simpa using hp
      simp only [dbLookup, List.cons_append, List.find?_cons, hp2] at h ⊢
      exact ih h

/-- Characterization of `Gog.update_media_activity` on a present row. -/
theorem gog_update_spec (now uid amount : Nat) (db : Gog.Db) (row : Gog.UserRow)
    (h : dbLookup db uid = some row) :
    Gog.update_media_activity now uid amount db =
      (if row.media_count + amount < 12 then
        some (.progress, 12 - (row.media_count + amount),
          dbUpdate db uid (fun u =>
            { u with last_media := some now, media_count := u.media_count + amount }))
       else if row.auto_banned && decide (12 ≤ row.media_count + amount) then
        some (.reactivated, 0,
          dbUpdate
            (dbUpdate db uid (fun u =>
              { u with last_media := some now, media_count := u.media_count + amount }))
            uid (fun v => { v with auto_banned := false, media_count := 12 }))
       else
        some (.active, 0,
          dbUpdate db uid (fun u =>
            { u with last_media := some now, media_count := u.media_count + amount }))) := by
  simp only [Gog.update_media_activity, dbLookup_dbUpdate, h, Option.map_some']

/-! ### C1 -/

/-- C1: a manually banned sender is rejected with the banned reply in both
variants: the handler returns immediately, sends no other reply, performs
no store mutation, enqueues no relay job and arms no flush. -/
theorem c1_manual_ban_short_circuit (now : Nat) (msg : Message)
    (stB : Bot.State) (stG : Gog.State)
    (hB : Bot.is_banned stB.db msg.chat_id = true)
    (hG : Gog.is_banned stG.db msg.chat_id = true) :
    Bot.relay now msg stB = ⟨[.youAreBanned], stB, none⟩ ∧
    Gog.relay now msg stG = ⟨[.youAreBanned], stG, none, false⟩ := by
  constructor
  · simp [Bot.relay, hB]
  · simp [Gog.relay, hG]

def c1rowB : Bot.UserRow := ⟨none, true, false, false, 0, none⟩

def c1rowG : Gog.UserRow := ⟨none, true, true, true, false, 20, some 3⟩

def c1stB : Bot.State := ⟨[(5, c1rowB)], [], fun _ => [], []⟩

def c1stG : Gog.State := ⟨[(5, c1rowG)], [], fun _ => [], fun _ => false, []⟩

def c1msg : Message := ⟨5, .photo, none⟩

theorem c1_witness :
    Bot.relay 0 c1msg c1stB = ⟨[.youAreBanned], c1stB, none⟩ ∧
    Gog.relay 0 c1msg c1stG = ⟨[.youAreBanned], c1stG, none, false⟩ :=
  c1_manual_ban_short_circuit 0 c1msg c1stB c1stG (by decide) (by decide)

/-! ### C9 -/

/-- C9: the delivery map is first-write-wins: inserting an outbound message
id that is already present leaves the map unchanged, existing records are
never removed or modified by an insert, and key uniqueness is preserved. -/
theorem c9_message_map_first_write_wins (m : List MsgRec) (mid origin receiver : Nat) :
    (m.any (fun r => r.1 == mid) = true →
      save_message_map mid origin receiver m = m) ∧
    (∀ r ∈ m, r ∈ save_message_map mid origin receiver m) ∧
    ((m.map (fun r => r.1)).Nodup →
      ((save_message_map mid origin receiver m).map (fun r => r.1)).Nodup) := by
  refine ⟨?_, ?_, ?_⟩
  · intro h; simp [save_message_map, h]
  · intro r hr
    by_cases h : m.any (fun q => q.1 == mid) <;> simp [save_message_map, h, hr]
  · intro hnd
    by_cases h : m.any (fun q => q.1 == mid)
    · simpa [save_message_map, h] using hnd
    · have hfresh : ∀ q ∈ m, q.1 ≠ mid := by
        intro q hq hc
        exact h (List.any_eq_true.mpr ⟨q, hq, by simp [hc]⟩)
      have h2 : (m.any (fun q => q.1 == mid)) = false := Bool.eq_false_iff.mpr h
      simp only [save_message_map, h2, Bool.false_eq_true, ite_false,
        List.map_append, List.map_cons, List.map_nil]
      rw [List.nodup_append]
      refine ⟨hnd, by simp, ?_⟩
      intro x hx
      simp only [List.mem_map] at hx
      obtain ⟨q, hq, hqx⟩ := hx
      subst hqx
      simp [hfresh q hq]

theorem c9_witness :
    save_message_map 5 7 8 [(5, 1, 2)] = [(5, 1, 2)] ∧
    (((save_message_map 9 7 8 [(5, 1, 2)]).map (fun r => r.1)).Nodup) :=
  ⟨(c9_message_map_first_write_wins [(5, 1, 2)] 5 7 8).1 (by decide),
   (c9_message_map_first_write_wins [(5, 1, 2)] 9 7 8).2.2 (by decide)⟩

/-! ### C10 -/

/-- C10: in `bot.py` a user whose `last_media` was never set (the state a
new user is created in, since the timestamp initialization in `start` sits
after a `return` and is unreachable) is never auto-banned by the inactivity
sweep, regardless of `now`; joining via `add_user` produces exactly such a
row and the sweep leaves it untouched. -/
theorem c10_null_timestamp_never_swept (now : Nat) (db : Bot.Db) (uid : Nat) :
    (∀ row : Bot.UserRow, dbLookup db uid = some row → row.last_media = none →
      dbLookup (Bot.check_inactive_users now db) uid = some row) ∧
    (dbLookup db uid = none →
      dbLookup (Bot.check_inactive_users now (Bot.add_user db uid)) uid
        = some Bot.defaultRow) := by
  constructor
  · intro row h hnone
    rw [Bot.check_inactive_users, dbLookup_dbMapRows, h]
    simp [hnone]
  · intro h
    have hne : Bot.user_exists db uid = false := by simp [Bot.user_exists, h]
    rw [Bot.check_inactive_users, dbLookup_dbMapRows, Bot.add_user, hne]
    simp only [Bool.false_eq_true, ite_false]
    rw [dbLookup_append_right db [(uid, Bot.defaultRow)] uid h]
    simp [dbLookup, List.find?_cons, Bot.defaultRow]

theorem c10_witness :
    dbLookup (Bot.check_inactive_users 1000000 [(4, ⟨none, false, false, false, 0, none⟩)]) 4
      = some ⟨none, false, false, false, 0, none⟩ ∧
    dbLookup (Bot.check_inactive_users 1000000 (Bot.add_user [] 9)) 9
      = some Bot.defaultRow :=
  ⟨(c10_null_timestamp_never_swept 1000000 [(4, ⟨none, false, false, false, 0, none⟩)] 4).1
      ⟨none, false, false, false, 0, none⟩ (by decide) (by decide),
   (c10_null_timestamp_never_swept 1000000 [] 9).2 (by decide)⟩

/-! ### C4 -/

def c4dbBot : Bot.Db := [(ADMIN_ID, ⟨none, false, false, false, 0, some 0⟩)]

/-- C4 counterexample: in `bot.py` the inactivity sweep has no moderator
(and no whitelist) exemption: run at time 100 against the admin row with a
stale timestamp, the sweep sets the admin auto-banned, contradicting the
claim that the moderator is never auto-banned by the sweep. -/
theorem c4_counterexample :
    ((dbLookup c4dbBot ADMIN_ID).map (fun u => u.auto_banned)) = some false ∧
    ((dbLookup (Bot.check_inactive_users 100 c4dbBot) ADMIN_ID).map
      (fun u => u.auto_banned)) = some true := by
  constructor <;> decide

/-- C4 amended: in the whitelist variant (`gog.py`) the inactivity sweep
leaves every whitelisted row and every admin row exactly unchanged, no
matter how stale the timestamp; the simple variant (`bot.py`) has no such
exemption. -/
theorem c4_amended_gog_sweep_exempts (now : Nat) (db : Gog.Db) (uid : Nat)
    (row : Gog.UserRow) (h : dbLookup db uid = some row)
    (hwm : row.whitelisted = true ∨ uid = ADMIN_ID) :
    dbLookup (Gog.check_inactive_users now db) uid = some row := by
  rw [Gog.check_inactive_users, dbLookup_dbMapRows, h]
  rcases hwm with hw | ha
  · simp [hw]
  · simp [ha]

def c4rowW : Gog.UserRow := ⟨none, false, false, false, true, 0, some 0⟩

def c4rowA : Gog.UserRow := ⟨none, false, false, false, false, 0, none⟩

theorem c4_witness :
    dbLookup (Gog.check_inactive_users 1000 [(3, c4rowW)]) 3 = some c4rowW ∧
    dbLookup (Gog.check_inactive_users 1000 [(ADMIN_ID, c4rowA)]) ADMIN_ID = some c4rowA :=
  ⟨c4_amended_gog_sweep_exempts 1000 [(3, c4rowW)] 3 c4rowW (by decide) (Or.inl (by decide)),
   c4_amended_gog_sweep_exempts 1000 [(ADMIN_ID, c4rowA)] ADMIN_ID c4rowA (by decide)
     (Or.inr rfl)⟩

/-! ### C5 -/

def c5row : Gog.UserRow := ⟨none, false, true, false, false, 50, some 0⟩

def c5st : Gog.State := ⟨[(7, c5row)], [], fun _ => [], fun _ => false, []⟩

def c5msg : Message := ⟨7, .photo, none⟩

/-- C5 counterexample: in `gog.py` an auto-banned user with a stored count
of 50 sends one media message; the recovery path reactivates and clamps
`media_count` to 12, lowering the stored count from 50 to 12, so the count
is not monotone across inbound handling. -/
theorem c5_counterexample :
    ((dbLookup c5st.db 7).map (fun u => u.media_count)) = some 50 ∧
    ((dbLookup (Gog.relay 100 c5msg c5st).state.db 7).map (fun u => u.media_count))
      = some 12 ∧
    (Gog.relay 100 c5msg c5st).replies = [.activeAgain] := by
  refine ⟨by decide, by decide, by decide⟩

/-- C5 amended: the stored activation count never decreases in a media
update as long as it was at most the threshold 12 beforehand (and in
`bot.py` it never decreases at all); the `gog.py` reactivation step clamps
the count to 12, which lowers counts that had grown beyond the threshold. -/
theorem c5_amended_count_monotone (now uid amount : Nat) (db : Gog.Db) (dbB : Bot.Db)
    (row : Gog.UserRow) (s : Gog.ActStatus) (r : Nat) (db1 : Gog.Db)
    (h : dbLookup db uid = some row) (hle : row.media_count ≤ 12)
    (hres : Gog.update_media_activity now uid amount db = some (s, r, db1)) :
    (∃ row1 : Gog.UserRow, dbLookup db1 uid = some row1 ∧
      row.media_count ≤ row1.media_count) ∧
    (∀ rowB : Bot.UserRow, dbLookup dbB uid = some rowB →
      ∃ rowB1 : Bot.UserRow,
        dbLookup (Bot.update_media_activity now uid dbB) uid = some rowB1 ∧
        rowB.media_count ≤ rowB1.media_count) := by
  constructor
  · rw [gog_update_spec now uid amount db row h] at hres
    by_cases h1 : row.media_count + amount < 12
    · simp only [h1, ite_true, Option.some.injEq, Prod.mk.injEq] at hres
      obtain ⟨-, -, hdb⟩ := hres
      subst hdb
      refine ⟨{ row with last_media := some now, media_count := row.media_count + amount },
        ?_, by simp⟩
      rw [dbLookup_dbUpdate, h]
      rfl
    · simp only [h1, ite_false] at hres
      by_cases h2 : (row.auto_banned && decide (12 ≤ row.media_count + amount)) = true
      · simp only [h2, ite_true, Option.some.injEq, Prod.mk.injEq] at hres
        obtain ⟨-, -, hdb⟩ := hres
        subst hdb
        refine ⟨{ row with last_media := some now, auto_banned := false, media_count := 12 },
          ?_, by simpa using hle⟩
        rw [dbLookup_dbUpdate, dbLookup_dbUpdate, h]
        rfl
      · simp only [h2, Bool.false_eq_true, ite_false, Option.some.injEq,
          Prod.mk.injEq] at hres
        obtain ⟨-, -, hdb⟩ := hres
        subst hdb
        refine ⟨{ row with last_media := some now, media_count := row.media_count + amount },
          ?_, by simp⟩
        rw [dbLookup_dbUpdate, h]
        rfl
  · intro rowB hB
    refine ⟨{ rowB with
              last_media := some now
              media_count := rowB.media_count + 1
              auto_banned := false }, ?_, by simp⟩
    rw [Bot.update_media_activity, dbLookup_dbUpdate, hB]
    rfl

def c5rowLow : Gog.UserRow := ⟨none, false, true, false, false, 9, some 0⟩

theorem c5_witness :
    (∃ row1 : Gog.UserRow, dbLookup
        (dbUpdate [(2, c5rowLow)] 2 (fun u =>
          { u with last_media := some 100, media_count := u.media_count + 1 })) 2
        = some row1 ∧ 9 ≤ row1.media_count) ∧
    (∀ rowB : Bot.UserRow, dbLookup [(2, (⟨none, false, false, false, 4, none⟩ : Bot.UserRow))] 2 = some rowB →
      ∃ rowB1 : Bot.UserRow,
        dbLookup (Bot.update_media_activity 100 2 [(2, ⟨none, false, false, false, 4, none⟩)]) 2
          = some rowB1 ∧ rowB.media_count ≤ rowB1.media_count) :=
  c5_amended_count_monotone 100 2 1 [(2, c5rowLow)]
    [(2, ⟨none, false, false, false, 4, none⟩)] c5rowLow .progress 2 _
    (by decide) (by decide) (by decide)

/-! ### C6 -/

/-- The recipient enumeration ignores any row transformation that preserves
the two ban flags (used to show shadow toggling does not affect it). -/
theorem get_all_users_mapRows (db : Bot.Db) (f : Nat → Bot.UserRow → Bot.UserRow)
    (hb : ∀ i u, (f i u).banned = u.banned)
    (ha : ∀ i u, (f i u).auto_banned = u.auto_banned) :
    Bot.get_all_users (dbMapRows db f) = Bot.get_all_users db := by
  induction db with
  | nil => rfl
  | cons p t ih =>
    simp only [Bot.get_all_users, dbMapRows, List.map_cons, List.filter_cons,
      hb p.1 p.2, ha p.1 p.2] at ih ⊢
    by_cases hc : (!p.2.banned && !p.2.auto_banned) = true
    · simp only [hc, if_true, List.map_cons]
      exact congrArg _ ih
    · have hc2 : (!p.2.banned && !p.2.auto_banned) = false := Bool.eq_false_iff.mpr hc
      simp only [hc2, Bool.false_eq_true, if_false]
      exact ih

/-- C6: the recipient set of a relay job is exactly the users with both the
manual-ban and the auto-ban flag unset, minus the origin; the shadow flag
plays no role (toggling any user's shadow ban leaves the recipient list
unchanged, so shadow-banned users are included as recipients). -/
theorem c6_recipients_exactly_unbanned (db : Bot.Db) (origin uid v : Nat) :
    (uid ∈ Bot.recipients db origin ↔
      ((∃ u : Bot.UserRow, (uid, u) ∈ db ∧ u.banned = false ∧ u.auto_banned = false)
        ∧ uid ≠ origin)) ∧
    Bot.recipients (Bot.shadow_toggle v db) origin = Bot.recipients db origin := by
  constructor
  · constructor
    · intro hmem
      simp only [Bot.recipients, List.mem_filter, Bot.get_all_users, List.mem_map] at hmem
      obtain ⟨⟨p, hp, hpe⟩, hne⟩ := hmem
      obtain ⟨hpdb, hflags⟩ := hp
      rw [Bool.and_eq_true, Bool.not_eq_true', Bool.not_eq_true'] at hflags
      subst hpe
      refine ⟨⟨p.2, ?_, hflags.1, hflags.2⟩, by simpa using hne⟩
      simpa using hpdb
    · intro hx
      obtain ⟨⟨u, hu, hb, ha⟩, hne⟩ := hx
      simp only [Bot.recipients, List.mem_filter, Bot.get_all_users, List.mem_map]
      refine ⟨⟨(uid, u), ?_, rfl⟩, by simpa using hne⟩
      exact ⟨hu, by simp [hb, ha]⟩
  · rw [Bot.recipients, Bot.recipients, Bot.shadow_toggle, dbUpdate,
      get_all_users_mapRows]
    · intro i u; by_cases h : (i == v) = true <;> simp [h]
    · intro i u; by_cases h : (i == v) = true <;> simp [h]

/-! ### C7 -/

/-- Skipping the origin inside the fan-out loop is the same as folding over
the recipient list with the origin filtered out. -/
theorem foldl_skip_origin (origin : Nat) (send : Nat → Option Nat) :
    ∀ (l : List Nat) (m : List MsgRec),
      l.foldl (fun m uid => if uid == origin then m else Bot.sendStep origin send m uid) m
        = (l.filter (fun u => u != origin)).foldl (Bot.sendStep origin send) m := by
  intro l
  induction l with
  | nil => intro m; rfl
  | cons u t ih =>
    intro m
    rw [List.foldl_cons, List.filter_cons]
    by_cases h : (u == origin) = true
    · rw [if_pos h]
      have h2 : ¬((u != origin) = true) := by simp [bne, h]
      rw [if_neg h2]
      exact ih m
    · rw [if_neg h]
      have hne : u ≠ origin := by intro hc; exact h (by simp [hc])
      have h2 : (u != origin) = true := bne_iff_ne.mpr hne
      rw [if_pos h2, List.foldl_cons]
      exact ih (Bot.sendStep origin send m u)

/-- The fan-out loop of `_process_single`: given fresh, pairwise-distinct
outbound ids, it appends one delivery record per successful send, in order,
and skips failed sends without aborting. -/
theorem foldl_sendStep_spec (origin : Nat) (send : Nat → Option Nat) :
    ∀ (l : List Nat) (m : List MsgRec),
      (∀ i ∈ l.filterMap send, ∀ q ∈ m, q.1 ≠ i) →
      (l.filterMap send).Nodup →
      l.foldl (Bot.sendStep origin send) m
        = m ++ l.filterMap (fun u => (send u).map (fun i => (i, origin, u))) := by
  intro l
  induction l with
  | nil => intro m _ _; simp
  | cons u t ih =>
    intro m hfresh hnd
    cases hs : send u with
    | none =>
      rw [List.foldl_cons]
      have hstep : Bot.sendStep origin send m u = m := by
        simp [Bot.sendStep, hs]
      rw [hstep, ih m ?_ ?_]
      · simp [List.filterMap_cons, hs]
      · intro i hi q hq
        exact hfresh i (by simp [List.filterMap_cons, hs, hi]) q hq
      · simpa [List.filterMap_cons, hs] using hnd
    | some i =>
      have hmem : i ∈ (u :: t).filterMap send := by
        simp [List.filterMap_cons, hs]
      have hnotin : (m.any (fun q => q.1 == i)) = false := by
        rw [Bool.eq_false_iff]
        intro hc
        obtain ⟨q, hq, hqe⟩ := List.any_eq_true.mp hc
        exact hfresh i hmem q hq (by simpa using hqe)
      have hndc : i ∉ t.filterMap send ∧ (t.filterMap send).Nodup := by
        rw [List.filterMap_cons, hs] at hnd
        exact List.nodup_cons.mp hnd
      rw [List.foldl_cons]
      have hstep : Bot.sendStep origin send m u = m ++ [(i, origin, u)] := by
        simp [Bot.sendStep, hs, save_message_map, hnotin]
      rw [hstep, ih (m ++ [(i, origin, u)]) ?_ hndc.2]
      · simp [List.filterMap_cons, hs]
      · intro j hj q hq
        rcases List.mem_append.mp hq with hq1 | hq2
        · exact hfresh j (by simp [List.filterMap_cons, hs, hj]) q hq1
        · have hq3 : q = (i, origin, u) := by simpa using hq2
          subst hq3
          intro hc
          simp only at hc
          rw [hc] at hndc
          exact hndc.1 hj

/-- The outbound ids of the produced records are the successful sends. -/
theorem filterMap_send_ids (origin : Nat) (send : Nat → Option Nat) :
    ∀ l : List Nat,
      ((l.filterMap (fun u => (send u).map (fun i => (i, origin, u)))).map
          (fun q => q.1))
        = l.filterMap send := by
  intro l
  induction l with
  | nil => rfl
  | cons u t ih => cases hs : send u <;> simp [List.filterMap_cons, hs, ih]

/-- Record count plus failure count equals the recipient count. -/
theorem filterMap_send_length (origin : Nat) (send : Nat → Option Nat) :
    ∀ l : List Nat,
      (l.filterMap (fun u => (send u).map (fun i => (i, origin, u)))).length
        + (l.filter (fun u => (send u).isNone)).length = l.length := by
  intro l
  induction l with
  | nil => rfl
  | cons u t ih =>
    cases hs : send u <;>
      simp only [List.filterMap_cons, List.filter_cons, hs, Option.map_none',
        Option.map_some', Option.isNone_none, Option.isNone_some, List.length_cons,
        if_true, Bool.false_eq_true, if_false] <;>
      omega

/-- C7: for a `Single` job whose eligible recipients produce distinct
outbound ids and exactly one transport failure, the loop catches the
failure and continues, and afterwards there is exactly one delivery record
per successful send: `n - 1` records, each keyed by a distinct id. -/
theorem c7_single_fanout_skips_failures (db : Bot.Db) (origin : Nat)
    (send : Nat → Option Nat)
    (hfail : ((Bot.recipients db origin).filter (fun u => (send u).isNone)).length = 1)
    (hnd : ((Bot.recipients db origin).filterMap send).Nodup) :
    Bot.process_single db origin send []
        = (Bot.recipients db origin).filterMap
            (fun u => (send u).map (fun i => (i, origin, u))) ∧
    (Bot.process_single db origin send []).length
        = (Bot.recipients db origin).length - 1 ∧
    ((Bot.process_single db origin send []).map (fun q => q.1)).Nodup := by
  have hmain : Bot.process_single db origin send []
      = (Bot.recipients db origin).filterMap
          (fun u => (send u).map (fun i => (i, origin, u))) := by
    rw [Bot.process_single, foldl_skip_origin]
    rw [show (Bot.get_all_users db).filter (fun u => u != origin)
          = Bot.recipients db origin from rfl]
    rw [foldl_sendStep_spec origin send _ [] (by intro i _ q hq; simp at hq) hnd]
    simp
  refine ⟨hmain, ?_, ?_⟩
  · rw [hmain]
    have hlen := filterMap_send_length origin send (Bot.recipients db origin)
    omega
  · rw [hmain, filterMap_send_ids]
    exact hnd

def c7row : Bot.UserRow := ⟨none, false, false, false, 3, some 1⟩

def c7db : Bot.Db := [(1, c7row), (2, c7row), (3, c7row)]

def c7send : Nat → Option Nat := fun u => if u = 2 then none else some (100 + u)

theorem c7_witness :
    Bot.process_single c7db 0 c7send []
        = (Bot.recipients c7db 0).filterMap
            (fun u => (c7send u).map (fun i => (i, 0, u))) ∧
    (Bot.process_single c7db 0 c7send []).length = (Bot.recipients c7db 0).length - 1 ∧
    ((Bot.process_single c7db 0 c7send []).map (fun q => q.1)).Nodup :=
  c7_single_fanout_skips_failures c7db 0 c7send (by decide) (by decide)

/-! ### C3 -/

def c3row : Bot.UserRow := ⟨none, false, true, false, 0, some 0⟩

def c3st : Bot.State := ⟨[(1, c3row)], [], fun _ => [], []⟩

def c3msg : Message := ⟨1, .photo, none⟩

/-- C3 counterexample: in `bot.py` an auto-banned user with activation
count 0 sends a single photo; the handler unconditionally clears the
auto-ban (reporting "unbanned") although the post-increment count (2, well
below 12) never reached the threshold, and it even relays the message —
contradicting the claim that below the threshold the user stays auto-banned
with only progress reported and nothing relayed. -/
theorem c3_counterexample :
    Bot.is_auto_banned c3st.db 1 = true ∧
    c3msg.isMedia = true ∧
    (Bot.relay 100 c3msg c3st).replies = [.unbannedStayActive] ∧
    ((dbLookup (Bot.relay 100 c3msg c3st).state.db 1).map (fun u => u.auto_banned))
      = some false ∧
    ((dbLookup (Bot.relay 100 c3msg c3st).state.db 1).map (fun u => u.media_count))
      = some 2 ∧
    (Bot.relay 100 c3msg c3st).state.queue = [Job.single c3msg] := by
  refine ⟨by decide, by decide, by decide, by decide, by decide, by decide⟩

/-- C3 amended: in the graduated variant (`gog.py`), for an auto-banned
(non-whitelisted, non-admin, non-manually-banned) sender of a single
(non-grouped) message: a non-media message is rejected as inactive with no
state change and nothing relayed; a media message increments the stored
count (and timestamp), and the auto-ban is cleared with the reactivated
reply exactly when the post-increment count reaches the threshold 12 (the
count then being clamped to 12); below 12 the user stays auto-banned and
gets the remaining-progress reply.  In the simple variant (`bot.py`) any
media message clears the auto-ban immediately. -/
theorem c3_amended_gog_recovery (now : Nat) (msg : Message) (st : Gog.State)
    (row : Gog.UserRow)
    (hrow : dbLookup st.db msg.chat_id = some row)
    (hban : row.banned = false) (hwl : row.whitelisted = false)
    (hadm : msg.chat_id ≠ ADMIN_ID) (hauto : row.auto_banned = true)
    (hgrp : msg.media_group_id = none) :
    (msg.isMedia = false →
      Gog.relay now msg st = ⟨[.inactiveSend12], st, none, false⟩) ∧
    (msg.isMedia = true → row.media_count + 1 < 12 →
      Gog.relay now msg st =
        ⟨[.mediaLeftToReactivate (12 - (row.media_count + 1))],
         { st with
           db := dbUpdate st.db msg.chat_id (fun u =>
                   { u with last_media := some now, media_count := u.media_count + 1 }) },
         none, false⟩) ∧
    (msg.isMedia = true → 12 ≤ row.media_count + 1 →
      Gog.relay now msg st =
        ⟨[.activeAgain],
         { st with
           db := dbUpdate
                   (dbUpdate st.db msg.chat_id (fun u =>
                     { u with last_media := some now, media_count := u.media_count + 1 }))
                   msg.chat_id
                   (fun v => { v with auto_banned := false, media_count := 12 }) },
         none, false⟩) := by
  have h1 : Gog.is_banned st.db msg.chat_id = false := by
    simp [Gog.is_banned, hrow, hban]
  have h2 : Gog.is_whitelisted st.db msg.chat_id = false := by
    simp [Gog.is_whitelisted, hrow, hwl]
  have h3 : (msg.chat_id != ADMIN_ID) = true := bne_iff_ne.mpr hadm
  have hupd := gog_update_spec now msg.chat_id 1 st.db row hrow
  refine ⟨?_, ?_, ?_⟩
  · intro hm
    simp [Gog.relay, h1, h2, h3, hrow, hauto, hgrp, hm]
  · intro hm hlt
    have hrem : 0 < 12 - (row.media_count + 1) := by omega
    simp [Gog.relay, h1, h2, h3, hrow, hauto, hgrp, hm, hupd, hlt, hrem]
    omega
  · intro hm hge
    have hlt : ¬(row.media_count + 1 < 12) := by omega
    have h11 : 11 ≤ row.media_count := by omega
    simp [Gog.relay, h1, h2, h3, hrow, hauto, hgrp, hm, hupd, hlt, h11]

def c3rowG : Gog.UserRow := ⟨none, false, true, false, false, 5, some 0⟩

def c3stG : Gog.State := ⟨[(4, c3rowG)], [], fun _ => [], fun _ => false, []⟩

def c3msgG : Message := ⟨4, .photo, none⟩

theorem c3_witness :
    Gog.relay 100 c3msgG c3stG =
      ⟨[.mediaLeftToReactivate (12 - (c3rowG.media_count + 1))],
       { c3stG with
         db := dbUpdate c3stG.db c3msgG.chat_id (fun u =>
                 { u with last_media := some 100, media_count := u.media_count + 1 }) },
       none, false⟩ :=
  (c3_amended_gog_recovery 100 c3msgG c3stG c3rowG (by decide) (by decide) (by decide)
    (by decide) (by decide) (by decide)).2.1 (by decide) (by decide)

/-! ### C8 -/

/-- The activity update never touches the manual-ban flag. -/
theorem is_banned_update_media (now uid v : Nat) (db : Bot.Db) :
    Bot.is_banned (Bot.update_media_activity now uid db) v = Bot.is_banned db v := by
  rw [Bot.update_media_activity, dbUpdate, Bot.is_banned, Bot.is_banned,
    dbLookup_dbMapRows]
  cases dbLookup db v with
  | none => rfl
  | some u => by_cases h : (v == uid) = true <;> simp [h]

/-- The activity update never touches the shadow flag. -/
theorem is_shadow_update_media (now uid v : Nat) (db : Bot.Db) :
    Bot.is_shadow (Bot.update_media_activity now uid db) v = Bot.is_shadow db v := by
  rw [Bot.update_media_activity, dbUpdate, Bot.is_shadow, Bot.is_shadow,
    dbLookup_dbMapRows]
  cases dbLookup db v with
  | none => rfl
  | some u => by_cases h : (v == uid) = true <;> simp [h]

/-- The inactivity sweep never touches the manual-ban flag. -/
theorem is_banned_sweep (now v : Nat) (db : Bot.Db) :
    Bot.is_banned (Bot.check_inactive_users now db) v = Bot.is_banned db v := by
  rw [Bot.check_inactive_users, Bot.is_banned, Bot.is_banned, dbLookup_dbMapRows]
  cases dbLookup db v with
  | none => rfl
  | some u =>
    simp only [Option.map_some', Option.getD_some]
    split <;> rfl

/-- The inactivity sweep never touches the shadow flag. -/
theorem is_shadow_sweep (now v : Nat) (db : Bot.Db) :
    Bot.is_shadow (Bot.check_inactive_users now db) v = Bot.is_shadow db v := by
  rw [Bot.check_inactive_users, Bot.is_shadow, Bot.is_shadow, dbLookup_dbMapRows]
  cases dbLookup db v with
  | none => rfl
  | some u =>
    simp only [Option.map_some', Option.getD_some]
    split <;> rfl

/-- A media message never matches the text word filter. -/
theorem media_not_textBanned (m : Message) (w : List String) (hm : m.isMedia = true) :
    Message.textBanned w m = false := by
  cases hc : m.content with
  | text b => simp [Message.isMedia, hc] at hm
  | photo => simp [Message.textBanned, hc]
  | video => simp [Message.textBanned, hc]

/-- `relayMain` on a non-shadowed media message carrying a group id:
buffer the message, arm the debounce flush exactly when it is the first of
its group, touch neither the queue nor any other group. -/
theorem bot_relayMain_album (now : Nat) (m : Message) (rs : List Reply)
    (st : Bot.State) (g : Nat)
    (hg : m.media_group_id = some g) (hm : m.isMedia = true)
    (hsh : Bot.is_shadow st.db m.chat_id = false) :
    Bot.relayMain now m rs st =
      ⟨rs,
       { st with
         db := Bot.update_media_activity now m.chat_id
                 (Bot.check_inactive_users now st.db)
         media_groups := fnSet st.media_groups g (st.media_groups g ++ [m]) },
       if (st.media_groups g).length + 1 > 1 then none else some g⟩ := by
  have htb : Message.textBanned st.words m = false := media_not_textBanned m st.words hm
  rw [Bot.relayMain]
  rw [if_neg (by simp [hsh]), if_neg (by simp [htb])]
  simp only [hm, if_true, hg]
  by_cases hlen : (st.media_groups g).length + 1 > 1
  · rw [if_pos hlen, if_pos hlen]
  · rw [if_neg hlen, if_neg hlen]

/-- One `relay` call on an eligible (not banned, not shadowed) media
message of a group: the message is appended to its group buffer, the
debounce flush is armed exactly for the first message of the group, the
queue is untouched, and the ban/shadow flags of every user are preserved. -/
theorem bot_relay_album_step (now : Nat) (st : Bot.State) (m : Message) (g : Nat)
    (hg : m.media_group_id = some g) (hm : m.isMedia = true)
    (hban : Bot.is_banned st.db m.chat_id = false)
    (hsh : Bot.is_shadow st.db m.chat_id = false) :
    (Bot.relay now m st).armed
        = (if (st.media_groups g).length + 1 > 1 then none else some g) ∧
    (Bot.relay now m st).state.media_groups
        = fnSet st.media_groups g (st.media_groups g ++ [m]) ∧
    (Bot.relay now m st).state.queue = st.queue ∧
    (∀ v, Bot.is_banned (Bot.relay now m st).state.db v = Bot.is_banned st.db v) ∧
    (∀ v, Bot.is_shadow (Bot.relay now m st).state.db v = Bot.is_shadow st.db v) := by
  rw [Bot.relay]
  rw [if_neg (by simp [hban])]
  by_cases hab : Bot.is_auto_banned st.db m.chat_id = true
  · rw [if_pos hab, if_pos (by simp [hm])]
    have hsh1 : Bot.is_shadow
        (Bot.update_media_activity now m.chat_id st.db) m.chat_id = false := by
      rw [is_shadow_update_media]; exact hsh
    rw [bot_relayMain_album now m [.unbannedStayActive]
      { st with db := Bot.update_media_activity now m.chat_id st.db } g hg hm hsh1]
    refine ⟨rfl, rfl, rfl, ?_, ?_⟩
    · intro v
      simp only
      rw [is_banned_update_media, is_banned_sweep, is_banned_update_media]
    · intro v
      simp only
      rw [is_shadow_update_media, is_shadow_sweep, is_shadow_update_media]
  · rw [if_neg hab]
    rw [bot_relayMain_album now m [] st g hg hm hsh]
    refine ⟨rfl, rfl, rfl, ?_, ?_⟩
    · intro v
      simp only
      rw [is_banned_update_media, is_banned_sweep]
    · intro v
      simp only
      rw [is_shadow_update_media, is_shadow_sweep]

/-- The `bot.py` half of the debounce property: two media messages of one
group arriving within the window produce one armed flush, one `album` job
in arrival order, no separate enqueues, and an idempotent re-flush. -/
theorem bot_album_pair_flow (now : Nat) (st : Bot.State) (g : Nat)
    (m1 m2 : Message)
    (h1g : m1.media_group_id = some g) (h2g : m2.media_group_id = some g)
    (h1m : m1.isMedia = true) (h2m : m2.isMedia = true)
    (hban1 : Bot.is_banned st.db m1.chat_id = false)
    (hsh1 : Bot.is_shadow st.db m1.chat_id = false)
    (hban2 : Bot.is_banned st.db m2.chat_id = false)
    (hsh2 : Bot.is_shadow st.db m2.chat_id = false)
    (hgrp : st.media_groups g = []) :
    (Bot.relay now m1 st).armed = some g ∧
    (Bot.relay now m2 (Bot.relay now m1 st).state).armed = none ∧
    (Bot.relay now m1 st).state.queue = st.queue ∧
    (Bot.relay now m2 (Bot.relay now m1 st).state).state.queue = st.queue ∧
    (Bot.relay now m2 (Bot.relay now m1 st).state).state.media_groups g = [m1, m2] ∧
    (Bot.flush g (Bot.relay now m2 (Bot.relay now m1 st).state).state).queue
        = st.queue ++ [Job.album [m1, m2]] ∧
    (Bot.flush g (Bot.relay now m2 (Bot.relay now m1 st).state).state).media_groups g
        = [] ∧
    Bot.flush g (Bot.flush g (Bot.relay now m2 (Bot.relay now m1 st).state).state)
        = Bot.flush g (Bot.relay now m2 (Bot.relay now m1 st).state).state := by
  obtain ⟨ha1, hmg1, hq1, hbp1, hsp1⟩ :=
    bot_relay_album_step now st m1 g h1g h1m hban1 hsh1
  have hga : (Bot.relay now m1 st).armed = some g := by
    rw [ha1, hgrp]
    norm_num
  have hgl1 : (Bot.relay now m1 st).state.media_groups g = [m1] := by
    rw [hmg1, hgrp]
    simp [fnSet]
  obtain ⟨ha2, hmg2, hq2, hbp2, hsp2⟩ :=
    bot_relay_album_step now (Bot.relay now m1 st).state m2 g h2g h2m
      (by rw [hbp1 m2.chat_id]; exact hban2)
      (by rw [hsp1 m2.chat_id]; exact hsh2)
  have hna : (Bot.relay now m2 (Bot.relay now m1 st).state).armed = none := by
    rw [ha2, hgl1]
    norm_num
  have hgl2 : (Bot.relay now m2 (Bot.relay now m1 st).state).state.media_groups g
      = [m1, m2] := by
    rw [hmg2, hgl1]
    simp [fnSet]
  have hq12 : (Bot.relay now m2 (Bot.relay now m1 st).state).state.queue = st.queue := by
    rw [hq2, hq1]
  have hflq : (Bot.flush g (Bot.relay now m2 (Bot.relay now m1 st).state).state).queue
      = st.queue ++ [Job.album [m1, m2]] := by
    rw [Bot.flush]
    simp only [hgl2, List.isEmpty_cons, Bool.false_eq_true, if_false]
    rw [hq12]
  have hflg : (Bot.flush g
      (Bot.relay now m2 (Bot.relay now m1 st).state).state).media_groups g = [] := by
    rw [Bot.flush]
    simp only [hgl2, List.isEmpty_cons, Bool.false_eq_true, if_false]
    simp [fnSet]
  refine ⟨hga, hna, hq1, hq12, hgl2, hflq, hflg, ?_⟩
  rw [Bot.flush]
  simp only [hflg, List.isEmpty_nil, if_true]
  have hfn : fnSet (Bot.flush g
        (Bot.relay now m2 (Bot.relay now m1 st).state).state).media_groups g []
      = (Bot.flush g (Bot.relay now m2 (Bot.relay now m1 st).state).state).media_groups := by
    funext x
    rw [fnSet]
    by_cases hx : x = g
    · rw [if_pos hx, hx, hflg]
    · rw [if_neg hx]
  rw [hfn]

def c8row : Bot.UserRow := ⟨none, false, false, false, 20, some 90⟩

def c8st : Bot.State := ⟨[(6, c8row)], [], fun _ => [], []⟩

def c8m1 : Message := ⟨6, .photo, some 42⟩

def c8m2 : Message := ⟨6, .video, some 42⟩

/-- The `gog.py` sweep leaves a row with a fresh timestamp unchanged. -/
theorem gog_sweep_fresh_row (now v : Nat) (db : Gog.Db) (row : Gog.UserRow) (t : Nat)
    (hrow : dbLookup db v = some row)
    (hlast : row.last_media = some t) (hfresh : ¬(t < now - 60)) :
    dbLookup (Gog.check_inactive_users now db) v = some row := by
  rw [Gog.check_inactive_users, dbLookup_dbMapRows, hrow]
  have hd : decide (t < now - 60) = false := decide_eq_false hfresh
  simp [hlast, hd]

/-- First message of a group from an active (count at least 12, not
auto-banned) `gog.py` sender with a fresh timestamp: the message is
buffered, the single media-activity update runs, and the album-relay
debounce flush is armed. -/
theorem gog_relay_album_first (now : Nat) (m : Message) (st : Gog.State) (g : Nat)
    (row : Gog.UserRow) (t : Nat)
    (hrow : dbLookup st.db m.chat_id = some row)
    (hban : row.banned = false) (hwl : row.whitelisted = false)
    (hadm : m.chat_id ≠ ADMIN_ID)
    (hsh : row.shadow_banned = false) (hauto : row.auto_banned = false)
    (hcnt : 12 ≤ row.media_count)
    (hlast : row.last_media = some t) (hfresh : ¬(t < now - 60))
    (hg : m.media_group_id = some g) (hm : m.isMedia = true)
    (ht : st.album_timers g = false) :
    Gog.relay now m st =
      ⟨[], { st with
             db := dbUpdate (Gog.check_inactive_users now st.db) m.chat_id
               (fun v => { v with last_media := some now, media_count := v.media_count + 1 })
             media_groups := fnSet st.media_groups g (st.media_groups g ++ [m])
             album_timers := fnSet st.album_timers g true },
       some (.albumRelay g), false⟩ := by
  have h1 : Gog.is_banned st.db m.chat_id = false := by simp [Gog.is_banned, hrow, hban]
  have h2 : Gog.is_whitelisted st.db m.chat_id = false := by
    simp [Gog.is_whitelisted, hrow, hwl]
  have h3 : (m.chat_id != ADMIN_ID) = true := bne_iff_ne.mpr hadm
  have hshadow : Gog.is_shadow st.db m.chat_id = false := by
    simp [Gog.is_shadow, hrow, hsh]
  have htb : Message.textBanned st.words m = false := media_not_textBanned m st.words hm
  have hswp := gog_sweep_fresh_row now m.chat_id st.db row t hrow hlast hfresh
  have hupd := gog_update_spec now m.chat_id 1 (Gog.check_inactive_users now st.db) row hswp
  have hnlt : ¬(row.media_count + 1 < 12) := by omega
  have hdl : decide (row.media_count < 12) = false := decide_eq_false (by omega)
  simp [Gog.relay, Gog.relayMain, h1, h2, h3, hrow, hauto, hdl, hshadow, htb, hm, hg,
    hupd, hnlt, ht]

/-- A later message of the same group while its timer is armed: it is only
appended to the buffer (after the per-message activity update); nothing is
armed and the queue is untouched. -/
theorem gog_relay_album_later (now : Nat) (m : Message) (st : Gog.State) (g : Nat)
    (row : Gog.UserRow) (t : Nat)
    (hrow : dbLookup st.db m.chat_id = some row)
    (hban : row.banned = false) (hwl : row.whitelisted = false)
    (hadm : m.chat_id ≠ ADMIN_ID)
    (hsh : row.shadow_banned = false) (hauto : row.auto_banned = false)
    (hcnt : 12 ≤ row.media_count)
    (hlast : row.last_media = some t) (hfresh : ¬(t < now - 60))
    (hg : m.media_group_id = some g) (hm : m.isMedia = true)
    (ht : st.album_timers g = true) :
    Gog.relay now m st =
      ⟨[], { st with
             db := dbUpdate (Gog.check_inactive_users now st.db) m.chat_id
               (fun v => { v with last_media := some now, media_count := v.media_count + 1 })
             media_groups := fnSet st.media_groups g (st.media_groups g ++ [m]) },
       none, false⟩ := by
  have h1 : Gog.is_banned st.db m.chat_id = false := by simp [Gog.is_banned, hrow, hban]
  have h2 : Gog.is_whitelisted st.db m.chat_id = false := by
    simp [Gog.is_whitelisted, hrow, hwl]
  have h3 : (m.chat_id != ADMIN_ID) = true := bne_iff_ne.mpr hadm
  have hshadow : Gog.is_shadow st.db m.chat_id = false := by
    simp [Gog.is_shadow, hrow, hsh]
  have htb : Message.textBanned st.words m = false := media_not_textBanned m st.words hm
  have hswp := gog_sweep_fresh_row now m.chat_id st.db row t hrow hlast hfresh
  have hupd := gog_update_spec now m.chat_id 1 (Gog.check_inactive_users now st.db) row hswp
  have hnlt : ¬(row.media_count + 1 < 12) := by omega
  have hdl : decide (row.media_count < 12) = false := decide_eq_false (by omega)
  simp [Gog.relay, Gog.relayMain, h1, h2, h3, hrow, hauto, hdl, hshadow, htb, hm, hg,
    hupd, hnlt, ht]

/-- The `gog.py` half of the debounce property: for two media messages of
one group from the same active sender, the first relay call arms the single
album-relay flush and the second only buffers; `process_album` then
enqueues one `album` job holding both messages in arrival order, and
running it again adds nothing. -/
theorem gog_album_pair_flow (now : Nat) (st : Gog.State) (g : Nat) (m1 m2 : Message)
    (row : Gog.UserRow) (t : Nat)
    (hsame : m2.chat_id = m1.chat_id)
    (hrow : dbLookup st.db m1.chat_id = some row)
    (hban : row.banned = false) (hwl : row.whitelisted = false)
    (hadm : m1.chat_id ≠ ADMIN_ID)
    (hsh : row.shadow_banned = false) (hauto : row.auto_banned = false)
    (hcnt : 12 ≤ row.media_count)
    (hlast : row.last_media = some t) (hfresh : ¬(t < now - 60))
    (h1g : m1.media_group_id = some g) (h2g : m2.media_group_id = some g)
    (h1m : m1.isMedia = true) (h2m : m2.isMedia = true)
    (hgrp : st.media_groups g = []) (ht : st.album_timers g = false) :
    (Gog.relay now m1 st).armed = some (.albumRelay g) ∧
    (Gog.relay now m1 st).crashed = false ∧
    (Gog.relay now m2 (Gog.relay now m1 st).state).armed = none ∧
    (Gog.relay now m2 (Gog.relay now m1 st).state).crashed = false ∧
    (Gog.relay now m1 st).state.queue = st.queue ∧
    (Gog.relay now m2 (Gog.relay now m1 st).state).state.queue = st.queue ∧
    (Gog.relay now m2 (Gog.relay now m1 st).state).state.media_groups g = [m1, m2] ∧
    (Gog.process_album g (Gog.relay now m2 (Gog.relay now m1 st).state).state).queue
        = st.queue ++ [Job.album [m1, m2]] ∧
    (Gog.process_album g
        (Gog.relay now m2 (Gog.relay now m1 st).state).state).media_groups g = [] ∧
    Gog.process_album g (Gog.process_album g
        (Gog.relay now m2 (Gog.relay now m1 st).state).state)
      = Gog.process_album g
          (Gog.relay now m2 (Gog.relay now m1 st).state).state := by
  have hrel1 := gog_relay_album_first now m1 st g row t hrow hban hwl hadm hsh hauto
    hcnt hlast hfresh h1g h1m ht
  have hrow2 : dbLookup (Gog.relay now m1 st).state.db m2.chat_id
      = some { row with last_media := some now, media_count := row.media_count + 1 } := by
    rw [hrel1, hsame]
    simp only
    rw [dbLookup_dbUpdate, gog_sweep_fresh_row now m1.chat_id st.db row t hrow hlast hfresh]
    rfl
  have hrel2 := gog_relay_album_later now m2 (Gog.relay now m1 st).state g
    { row with last_media := some now, media_count := row.media_count + 1 } now
    hrow2 hban hwl (by rw [hsame]; exact hadm) hsh hauto (by simp; omega) rfl
    (by omega) h2g h2m (by rw [hrel1]; simp [fnSet])
  have hgl1 : (Gog.relay now m1 st).state.media_groups g = [m1] := by
    rw [hrel1]
    simp [fnSet, hgrp]
  have hgl2 : (Gog.relay now m2 (Gog.relay now m1 st).state).state.media_groups g
      = [m1, m2] := by
    rw [hrel2]
    simp only
    rw [fnSet]
    simp [hgl1]
  have hq1 : (Gog.relay now m1 st).state.queue = st.queue := by rw [hrel1]
  have hq2 : (Gog.relay now m2 (Gog.relay now m1 st).state).state.queue = st.queue := by
    rw [hrel2]
    simp only
    rw [hq1]
  have hflq : (Gog.process_album g
      (Gog.relay now m2 (Gog.relay now m1 st).state).state).queue
      = st.queue ++ [Job.album [m1, m2]] := by
    rw [Gog.process_album, Gog.popAlbum]
    simp only [hgl2, List.isEmpty_cons, Bool.false_eq_true, if_false]
    rw [hq2]
  have hflg : (Gog.process_album g
      (Gog.relay now m2 (Gog.relay now m1 st).state).state).media_groups g = [] := by
    rw [Gog.process_album, Gog.popAlbum]
    simp only [hgl2, List.isEmpty_cons, Bool.false_eq_true, if_false]
    simp [fnSet]
  have hflt : (Gog.process_album g
      (Gog.relay now m2 (Gog.relay now m1 st).state).state).album_timers g = false := by
    rw [Gog.process_album, Gog.popAlbum]
    simp only [hgl2, List.isEmpty_cons, Bool.false_eq_true, if_false]
    simp [fnSet]
  refine ⟨by rw [hrel1], by rw [hrel1], by rw [hrel2], by rw [hrel2], hq1, hq2, hgl2,
    hflq, hflg, ?_⟩
  rw [Gog.process_album, Gog.popAlbum]
  simp only [hflg, List.isEmpty_nil, if_true]
  have hfn1 : fnSet (Gog.process_album g
        (Gog.relay now m2 (Gog.relay now m1 st).state).state).media_groups g []
      = (Gog.process_album g
          (Gog.relay now m2 (Gog.relay now m1 st).state).state).media_groups := by
    funext x
    rw [fnSet]
    by_cases hx : x = g
    · rw [if_pos hx, hx, hflg]
    · rw [if_neg hx]
  have hfn2 : fnSet (Gog.process_album g
        (Gog.relay now m2 (Gog.relay now m1 st).state).state).album_timers g false
      = (Gog.process_album g
          (Gog.relay now m2 (Gog.relay now m1 st).state).state).album_timers := by
    funext x
    rw [fnSet]
    by_cases hx : x = g
    · rw [if_pos hx, hx, hflt]
    · rw [if_neg hx]
  rw [hfn1, hfn2]

/-- C8: in both variants, two media messages that share a correlation id
and arrive within the debounce window (before the flush fires) produce
exactly one armed flush — the first message arms it, the second returns
without arming — and exactly one `album` job holding both messages in
arrival order; neither message is enqueued separately, and a repeated
flush of the same correlation id adds nothing. -/
theorem c8_album_debounce_single_flush (now : Nat) (st : Bot.State) (g : Nat)
    (m1 m2 : Message) (stG : Gog.State) (rowG : Gog.UserRow) (tG : Nat)
    (h1g : m1.media_group_id = some g) (h2g : m2.media_group_id = some g)
    (h1m : m1.isMedia = true) (h2m : m2.isMedia = true)
    (hban1 : Bot.is_banned st.db m1.chat_id = false)
    (hsh1 : Bot.is_shadow st.db m1.chat_id = false)
    (hban2 : Bot.is_banned st.db m2.chat_id = false)
    (hsh2 : Bot.is_shadow st.db m2.chat_id = false)
    (hgrp : st.media_groups g = [])
    (hsame : m2.chat_id = m1.chat_id)
    (hrowG : dbLookup stG.db m1.chat_id = some rowG)
    (hbanG : rowG.banned = false) (hwlG : rowG.whitelisted = false)
    (hadmG : m1.chat_id ≠ ADMIN_ID)
    (hshG : rowG.shadow_banned = false) (hautoG : rowG.auto_banned = false)
    (hcntG : 12 ≤ rowG.media_count)
    (hlastG : rowG.last_media = some tG) (hfreshG : ¬(tG < now - 60))
    (hgrpG : stG.media_groups g = []) (htG : stG.album_timers g = false) :
    ((Bot.relay now m1 st).armed = some g ∧
     (Bot.relay now m2 (Bot.relay now m1 st).state).armed = none ∧
     (Bot.relay now m1 st).state.queue = st.queue ∧
     (Bot.relay now m2 (Bot.relay now m1 st).state).state.queue = st.queue ∧
     (Bot.relay now m2 (Bot.relay now m1 st).state).state.media_groups g = [m1, m2] ∧
     (Bot.flush g (Bot.relay now m2 (Bot.relay now m1 st).state).state).queue
         = st.queue ++ [Job.album [m1, m2]] ∧
     (Bot.flush g (Bot.relay now m2 (Bot.relay now m1 st).state).state).media_groups g
         = [] ∧
     Bot.flush g (Bot.flush g (Bot.relay now m2 (Bot.relay now m1 st).state).state)
         = Bot.flush g (Bot.relay now m2 (Bot.relay now m1 st).state).state) ∧
    ((Gog.relay now m1 stG).armed = some (.albumRelay g) ∧
     (Gog.relay now m1 stG).crashed = false ∧
     (Gog.relay now m2 (Gog.relay now m1 stG).state).armed = none ∧
     (Gog.relay now m2 (Gog.relay now m1 stG).state).crashed = false ∧
     (Gog.relay now m1 stG).state.queue = stG.queue ∧
     (Gog.relay now m2 (Gog.relay now m1 stG).state).state.queue = stG.queue ∧
     (Gog.relay now m2 (Gog.relay now m1 stG).state).state.media_groups g = [m1, m2] ∧
     (Gog.process_album g (Gog.relay now m2 (Gog.relay now m1 stG).state).state).queue
         = stG.queue ++ [Job.album [m1, m2]] ∧
     (Gog.process_album g
         (Gog.relay now m2 (Gog.relay now m1 stG).state).state).media_groups g = [] ∧
     Gog.process_album g (Gog.process_album g
         (Gog.relay now m2 (Gog.relay now m1 stG).state).state)
       = Gog.process_album g
           (Gog.relay now m2 (Gog.relay now m1 stG).state).state) :=
  ⟨bot_album_pair_flow now st g m1 m2 h1g h2g h1m h2m hban1 hsh1 hban2 hsh2 hgrp,
   gog_album_pair_flow now stG g m1 m2 rowG tG hsame hrowG hbanG hwlG hadmG hshG
     hautoG hcntG hlastG hfreshG h1g h2g h1m h2m hgrpG htG⟩

def c8rowG : Gog.UserRow := ⟨none, false, false, false, false, 20, some 90⟩

def c8stG : Gog.State := ⟨[(6, c8rowG)], [], fun _ => [], fun _ => false, []⟩

theorem c8_witness :
    ((Bot.relay 100 c8m1 c8st).armed = some 42 ∧
     (Bot.relay 100 c8m2 (Bot.relay 100 c8m1 c8st).state).armed = none ∧
     (Bot.relay 100 c8m1 c8st).state.queue = c8st.queue ∧
     (Bot.relay 100 c8m2 (Bot.relay 100 c8m1 c8st).state).state.queue = c8st.queue ∧
     (Bot.relay 100 c8m2 (Bot.relay 100 c8m1 c8st).state).state.media_groups 42
         = [c8m1, c8m2] ∧
     (Bot.flush 42 (Bot.relay 100 c8m2 (Bot.relay 100 c8m1 c8st).state).state).queue
         = c8st.queue ++ [Job.album [c8m1, c8m2]] ∧
     (Bot.flush 42
         (Bot.relay 100 c8m2 (Bot.relay 100 c8m1 c8st).state).state).media_groups 42
         = [] ∧
     Bot.flush 42
         (Bot.flush 42 (Bot.relay 100 c8m2 (Bot.relay 100 c8m1 c8st).state).state)
         = Bot.flush 42 (Bot.relay 100 c8m2 (Bot.relay 100 c8m1 c8st).state).state) ∧
    ((Gog.relay 100 c8m1 c8stG).armed = some (.albumRelay 42) ∧
     (Gog.relay 100 c8m1 c8stG).crashed = false ∧
     (Gog.relay 100 c8m2 (Gog.relay 100 c8m1 c8stG).state).armed = none ∧
     (Gog.relay 100 c8m2 (Gog.relay 100 c8m1 c8stG).state).crashed = false ∧
     (Gog.relay 100 c8m1 c8stG).state.queue = c8stG.queue ∧
     (Gog.relay 100 c8m2 (Gog.relay 100 c8m1 c8stG).state).state.queue = c8stG.queue ∧
     (Gog.relay 100 c8m2 (Gog.relay 100 c8m1 c8stG).state).state.media_groups 42
         = [c8m1, c8m2] ∧
     (Gog.process_album 42
         (Gog.relay 100 c8m2 (Gog.relay 100 c8m1 c8stG).state).state).queue
         = c8stG.queue ++ [Job.album [c8m1, c8m2]] ∧
     (Gog.process_album 42
         (Gog.relay 100 c8m2 (Gog.relay 100 c8m1 c8stG).state).state).media_groups 42
         = [] ∧
     Gog.process_album 42 (Gog.process_album 42
         (Gog.relay 100 c8m2 (Gog.relay 100 c8m1 c8stG).state).state)
       = Gog.process_album 42
           (Gog.relay 100 c8m2 (Gog.relay 100 c8m1 c8stG).state).state) :=
  c8_album_debounce_single_flush 100 c8st 42 c8m1 c8m2 c8stG c8rowG 90 (by decide)
    (by decide) (by decide) (by decide) (by decide) (by decide) (by decide) (by decide)
    (by decide) (by decide) (by decide) (by decide) (by decide) (by decide) (by decide)
    (by decide) (by decide) (by decide) (by decide) (by decide) (by decide)

/-! ### C2 -/

/-- First message of a group from a below-threshold sender: it is buffered
and the activation debounce flush is armed, with no other state change. -/
theorem gog_relay_activation_first (now : Nat) (m : Message) (st : Gog.State)
    (g : Nat) (row : Gog.UserRow)
    (hrow : dbLookup st.db m.chat_id = some row)
    (hban : row.banned = false) (hwl : row.whitelisted = false)
    (hadm : m.chat_id ≠ ADMIN_ID)
    (hauto : row.auto_banned = false) (hcnt : row.media_count < 12)
    (hg : m.media_group_id = some g) (ht : st.album_timers g = false) :
    Gog.relay now m st =
      ⟨[], { st with
             media_groups := fnSet st.media_groups g (st.media_groups g ++ [m])
             album_timers := fnSet st.album_timers g true },
       some (.activation g m.chat_id), false⟩ := by
  have h1 : Gog.is_banned st.db m.chat_id = false := by simp [Gog.is_banned, hrow, hban]
  have h2 : Gog.is_whitelisted st.db m.chat_id = false := by
    simp [Gog.is_whitelisted, hrow, hwl]
  have h3 : (m.chat_id != ADMIN_ID) = true := bne_iff_ne.mpr hadm
  simp [Gog.relay, h1, h2, h3, hrow, hauto, hcnt, hg, ht]

/-- Later messages of a group from a below-threshold sender while the
debounce timer is armed: they are appended to the buffer and the handler
returns immediately without arming anything or touching the store. -/
theorem gog_relay_activation_buffered (now : Nat) (m : Message) (st : Gog.State)
    (g : Nat) (row : Gog.UserRow)
    (hrow : dbLookup st.db m.chat_id = some row)
    (hban : row.banned = false) (hwl : row.whitelisted = false)
    (hadm : m.chat_id ≠ ADMIN_ID)
    (hauto : row.auto_banned = false) (hcnt : row.media_count < 12)
    (hg : m.media_group_id = some g) (ht : st.album_timers g = true) :
    Gog.relay now m st =
      ⟨[], { st with
             media_groups := fnSet st.media_groups g (st.media_groups g ++ [m]) },
       none, false⟩ := by
  have h1 : Gog.is_banned st.db m.chat_id = false := by simp [Gog.is_banned, hrow, hban]
  have h2 : Gog.is_whitelisted st.db m.chat_id = false := by
    simp [Gog.is_whitelisted, hrow, hwl]
  have h3 : (m.chat_id != ADMIN_ID) = true := bne_iff_ne.mpr hadm
  simp [Gog.relay, h1, h2, h3, hrow, hauto, hcnt, hg, ht]

/-- While the timer of group `g` is armed, delivering any number of
further messages of that group only appends them to the buffer: the store,
the queue and the timers are untouched and no further flush is armed. -/
theorem gog_activation_arrivals (now u g : Nat) (row : Gog.UserRow)
    (hban : row.banned = false) (hwl : row.whitelisted = false)
    (hadm : u ≠ ADMIN_ID) (hauto : row.auto_banned = false)
    (hcnt : row.media_count < 12) :
    ∀ (rest : List Message) (s : Gog.State) (arms : List (Option Gog.Arm)),
      dbLookup s.db u = some row →
      s.album_timers g = true →
      (∀ m ∈ rest, m.chat_id = u ∧ m.media_group_id = some g) →
      (rest.foldl (fun acc m =>
          ((Gog.relay now m acc.1).state, acc.2 ++ [(Gog.relay now m acc.1).armed]))
        (s, arms)).1.db = s.db ∧
      (rest.foldl (fun acc m =>
          ((Gog.relay now m acc.1).state, acc.2 ++ [(Gog.relay now m acc.1).armed]))
        (s, arms)).1.queue = s.queue ∧
      (rest.foldl (fun acc m =>
          ((Gog.relay now m acc.1).state, acc.2 ++ [(Gog.relay now m acc.1).armed]))
        (s, arms)).1.album_timers = s.album_timers ∧
      (rest.foldl (fun acc m =>
          ((Gog.relay now m acc.1).state, acc.2 ++ [(Gog.relay now m acc.1).armed]))
        (s, arms)).1.media_groups g = s.media_groups g ++ rest ∧
      (rest.foldl (fun acc m =>
          ((Gog.relay now m acc.1).state, acc.2 ++ [(Gog.relay now m acc.1).armed]))
        (s, arms)).2 = arms ++ List.replicate rest.length none := by
  intro rest
  induction rest with
  | nil =>
    intro s arms _ _ _
    exact ⟨rfl, rfl, rfl, by simp, by simp⟩
  | cons m t ih =>
    intro s arms hdb ht hmem
    obtain ⟨hmu, hmg⟩ := hmem m (List.mem_cons_self m t)
    have hrel : Gog.relay now m s =
        ⟨[], { s with
               media_groups := fnSet s.media_groups g (s.media_groups g ++ [m]) },
         none, false⟩ := by
      apply gog_relay_activation_buffered now m s g row _ hban hwl _ hauto hcnt hmg ht
      · rw [hmu]; exact hdb
      · rw [hmu]; exact hadm
    rw [List.foldl_cons]
    have hstep : ((Gog.relay now m s).state, arms ++ [(Gog.relay now m s).armed])
        = ({ s with media_groups := fnSet s.media_groups g (s.media_groups g ++ [m]) },
           arms ++ [none]) := by
      rw [hrel]
    rw [hstep]
    obtain ⟨ih1, ih2, ih3, ih4, ih5⟩ := ih
      { s with media_groups := fnSet s.media_groups g (s.media_groups g ++ [m]) }
      (arms ++ [none]) hdb ht (fun x hx => hmem x (List.mem_cons_of_mem m hx))
    refine ⟨ih1, ih2, ih3, ?_, ?_⟩
    · rw [ih4]
      simp [fnSet]
    · rw [ih5]
      simp [List.replicate_succ]

/-- The activation flush credits the whole buffered batch in one
`update_media_activity` call: for a non-auto-banned user the stored count
goes up by exactly the batch length (no clamping applies). -/
theorem gog_process_activation_spec (now g u : Nat) (s : Gog.State)
    (row : Gog.UserRow)
    (hrow : dbLookup s.db u = some row) (hauto : row.auto_banned = false)
    (hne : s.media_groups g ≠ []) :
    (Gog.process_activation now g u s).2.db
      = dbUpdate s.db u (fun v =>
          { v with
            last_media := some now
            media_count := v.media_count + (s.media_groups g).length }) := by
  have hupd := gog_update_spec now u (s.media_groups g).length s.db row hrow
  have hemp : (s.media_groups g).isEmpty = false := by
    cases hc : s.media_groups g with
    | nil => exact absurd hc hne
    | cons a l => rfl
  by_cases hlt : row.media_count + (s.media_groups g).length < 12
  · simp [Gog.process_activation, Gog.popAlbum, hemp, hupd, hlt, hauto]
  · simp [Gog.process_activation, Gog.popAlbum, hemp, hupd, hlt, hauto]

/-- C2 amended: in the graduated variant (`gog.py`), for a media batch of
size `k` sharing one correlation id, sent by a below-threshold user: the
first message arms exactly one activation flush and every later message
only buffers (store and queue untouched, nothing armed); the single flush
then increments the stored activation count by exactly `k` in one update.
In the simple variant (`bot.py`) the accounting is per arrival instead:
each group message performs its own single increment and the flush does
none (see the counterexample). -/
theorem c2_media_batch_single_increment (now u g : Nat) (row : Gog.UserRow)
    (st0 : Gog.State) (m1 : Message) (rest : List Message)
    (hrow : dbLookup st0.db u = some row) (hban : row.banned = false)
    (hwl : row.whitelisted = false) (hadm : u ≠ ADMIN_ID)
    (hauto : row.auto_banned = false) (hcnt : row.media_count < 12)
    (hg0 : st0.media_groups g = []) (ht0 : st0.album_timers g = false)
    (hmsgs : ∀ m ∈ (m1 :: rest),
      m.chat_id = u ∧ m.media_group_id = some g ∧ m.isMedia = true) :
    (Gog.arriveTrace now (m1 :: rest) st0).2
        = some (Gog.Arm.activation g u) :: List.replicate rest.length none ∧
    (Gog.arriveTrace now (m1 :: rest) st0).1.db = st0.db ∧
    (Gog.arriveTrace now (m1 :: rest) st0).1.queue = st0.queue ∧
    (Gog.arriveTrace now (m1 :: rest) st0).1.media_groups g = m1 :: rest ∧
    dbLookup
        (Gog.process_activation now g u (Gog.arriveTrace now (m1 :: rest) st0).1).2.db u
      = some { row with
               last_media := some now
               media_count := row.media_count + (m1 :: rest).length } := by
  obtain ⟨hm1u, hm1g, _⟩ := hmsgs m1 (List.mem_cons_self m1 rest)
  have hrel1 : Gog.relay now m1 st0 =
      ⟨[], { st0 with
             media_groups := fnSet st0.media_groups g (st0.media_groups g ++ [m1])
             album_timers := fnSet st0.album_timers g true },
       some (.activation g u), false⟩ := by
    rw [← hm1u]
    apply gog_relay_activation_first now m1 st0 g row _ hban hwl _ hauto hcnt hm1g ht0
    · rw [hm1u]; exact hrow
    · rw [hm1u]; exact hadm
  have hrest : ∀ m ∈ rest, m.chat_id = u ∧ m.media_group_id = some g := by
    intro m hm
    obtain ⟨h1, h2, _⟩ := hmsgs m (List.mem_cons_of_mem m1 hm)
    exact ⟨h1, h2⟩
  rw [Gog.arriveTrace, List.foldl_cons]
  have hstep : ((Gog.relay now m1 st0).state, ([] : List (Option Gog.Arm))
        ++ [(Gog.relay now m1 st0).armed])
      = ({ st0 with
           media_groups := fnSet st0.media_groups g (st0.media_groups g ++ [m1])
           album_timers := fnSet st0.album_timers g true },
         [some (.activation g u)]) := by
    rw [hrel1]
    rfl
  rw [hstep]
  obtain ⟨ih1, ih2, ih3, ih4, ih5⟩ :=
    gog_activation_arrivals now u g row hban hwl hadm hauto hcnt rest
      { st0 with
        media_groups := fnSet st0.media_groups g (st0.media_groups g ++ [m1])
        album_timers := fnSet st0.album_timers g true }
      [some (.activation g u)] hrow (by simp [fnSet]) hrest
  have hgl : (rest.foldl (fun acc m =>
      ((Gog.relay now m acc.1).state, acc.2 ++ [(Gog.relay now m acc.1).armed]))
        ({ st0 with
           media_groups := fnSet st0.media_groups g (st0.media_groups g ++ [m1])
           album_timers := fnSet st0.album_timers g true },
         [some (.activation g u)])).1.media_groups g = m1 :: rest := by
    rw [ih4]
    simp [fnSet, hg0]
  refine ⟨by rw [ih5]; simp [List.replicate], ih1, ih2, hgl, ?_⟩
  rw [gog_process_activation_spec now g u _ row (by rw [ih1]; exact hrow) hauto
    (by rw [hgl]; simp)]
  rw [ih1, hgl, dbLookup_dbUpdate, hrow]
  rfl

def c2row : Gog.UserRow := ⟨none, false, false, false, false, 10, some 50⟩

def c2st : Gog.State := ⟨[(3, c2row)], [], fun _ => [], fun _ => false, []⟩

def c2mA : Message := ⟨3, .photo, some 77⟩

def c2mB : Message := ⟨3, .video, some 77⟩

theorem c2_witness :
    (Gog.arriveTrace 200 [c2mA, c2mB] c2st).2
        = some (Gog.Arm.activation 77 3) :: List.replicate 1 none ∧
    (Gog.arriveTrace 200 [c2mA, c2mB] c2st).1.db = c2st.db ∧
    (Gog.arriveTrace 200 [c2mA, c2mB] c2st).1.queue = c2st.queue ∧
    (Gog.arriveTrace 200 [c2mA, c2mB] c2st).1.media_groups 77 = [c2mA, c2mB] ∧
    dbLookup
        (Gog.process_activation 200 77 3 (Gog.arriveTrace 200 [c2mA, c2mB] c2st).1).2.db 3
      = some { c2row with
               last_media := some 200
               media_count := c2row.media_count + ([c2mA, c2mB] : List Message).length } :=
  c2_media_batch_single_increment 200 3 77 c2row c2st c2mA [c2mB] (by decide) (by decide)
    (by decide) (by decide) (by decide) (by decide) (by decide) (by decide) (by decide)

def c2rowB : Bot.UserRow := ⟨none, false, false, false, 10, some 90⟩

def c2stB : Bot.State := ⟨[(3, c2rowB)], [], fun _ => [], []⟩

def c2mAB : Message := ⟨3, .photo, some 77⟩

def c2mBB : Message := ⟨3, .video, some 77⟩

/-- C2 counterexample: in `bot.py` a two-message batch (one correlation
id) from a user with stored count 10 is accounted per arriving message —
the count is already 11 after the first message and 12 after the second,
before any flush — and the flush itself changes no user row at all, so the
batch is credited by two separate single-item increments rather than by
one flush-time update of `+2`. -/
theorem c2_counterexample :
    ((dbLookup c2stB.db 3).map (fun v => v.media_count)) = some 10 ∧
    ((dbLookup (Bot.relay 100 c2mAB c2stB).state.db 3).map (fun v => v.media_count))
      = some 11 ∧
    ((dbLookup (Bot.relay 100 c2mBB (Bot.relay 100 c2mAB c2stB).state).state.db 3).map
        (fun v => v.media_count)) = some 12 ∧
    (Bot.flush 77 (Bot.relay 100 c2mBB (Bot.relay 100 c2mAB c2stB).state).state).db
      = (Bot.relay 100 c2mBB (Bot.relay 100 c2mAB c2stB).state).state.db := by
  refine ⟨by decide, by decide, by decide, by decide⟩
